import Mathlib

/-
  Shallow embedding of the wave-oscillation repository's core simulation code.

  Three source variants are embedded, each in its own namespace:
  * `Main`       — src/src/main.js (water-velocity grid variant; the claims'
                   representative variant for ripple influence, pool cap,
                   interference amplification and the ambient wind terms);
  * `KelvinRain` — the raindrop variant (second file of src/unnamed/part_003),
                   whose `getInfluence` carries a bounding-box pre-check and
                   whose render loop spawns V-wake ripples at
                   `moveAngle + pi ± WAKE_ANGLE` with a 40 px threshold;
  * `VWake`      — src/unnamed/part_004, whose `addRipple` evicts the ripple
                   with the lowest remaining-life fraction.

  JavaScript numbers are modelled as real numbers; `Math.sin`, `Math.sqrt`,
  `Math.abs`, `Math.atan2` become `Real.sin`, `Real.sqrt`, `|·|` and
  `Complex.arg`.  Ripple objects are immutable records; the mutable `ripples`
  array is passed explicitly as a `List`.
-/

/-- The `type` field of the ripple classes of part_003 / part_004:
the JS strings `normal`, `micro`, `wake`. -/
inductive RippleType where
  | normal : RippleType
  | micro : RippleType
  | wake : RippleType
deriving DecidableEq

open Classical

namespace Main

/-- `const MAX_RIPPLES = 20` of src/src/main.js. -/
def MAX_RIPPLES : ℕ := 20

/-- `const RIPPLE_SPEED = 280` of src/src/main.js. -/
def RIPPLE_SPEED : ℝ := 280

/-- `const RIPPLE_LIFESPAN = 6` of src/src/main.js. -/
def RIPPLE_LIFESPAN : ℝ := 6

/-- The `Ripple` class of src/src/main.js: constructor position `(x, y)`,
`birth` recorded from the global `time`, and the `microRipple` flag that the
ambient micro-disturbance path sets to `true`. -/
structure Ripple where
  x : ℝ
  y : ℝ
  birth : ℝ
  microRipple : Bool

/-- `get age() { return time - this.birth; }` — `t` is the global `time`. -/
noncomputable def age (t : ℝ) (r : Ripple) : ℝ := t - r.birth

/-- `get alive() { return this.age < RIPPLE_LIFESPAN; }`. -/
noncomputable def alive (t : ℝ) (r : Ripple) : Prop := age t r < RIPPLE_LIFESPAN

/-- `get strength()`: linear fade `1 - age/RIPPLE_LIFESPAN`, scaled by `0.3`
for micro ripples. -/
noncomputable def strength (t : ℝ) (r : Ripple) : ℝ :=
  let base := 1 - age t r / RIPPLE_LIFESPAN
  if r.microRipple then base * 0.3 else base

/-- `getInfluence(px, py)` of src/src/main.js lines 59-78. -/
noncomputable def getInfluence (t : ℝ) (r : Ripple) (px py : ℝ) : ℝ :=
  let dist := Real.sqrt ((px - r.x) ^ 2 + (py - r.y) ^ 2)
  let radius := age t r * RIPPLE_SPEED
  let ringWidth := 120 + age t r * 50
  let ringDist := |dist - radius|
  if ringDist > ringWidth then 0
  else
    let freq1 := Real.sin ((dist - radius) * 0.1)
    let freq2 := Real.sin ((dist - radius) * 0.2) * 0.5
    let freq3 := Real.sin ((dist - radius) * 0.05) * 0.3
    let wave := freq1 + freq2 + freq3
    let falloff := 1 - ringDist / ringWidth
    wave * falloff * strength t r

/-- `addRipple(x, y)` of src/src/main.js lines 96-103: push a normal ripple,
then `shift()` the oldest if the count exceeds `MAX_RIPPLES`. -/
def addRipple (t : ℝ) (rs : List Ripple) (x y : ℝ) : List Ripple :=
  let rs2 := rs ++ [⟨x, y, t, false⟩]
  if rs2.length > MAX_RIPPLES then rs2.tail else rs2

/-- The ambient micro-disturbance ripple spawn of src/src/main.js lines
192-196: `ripples.push(new Ripple(disturbX, disturbY))` followed by setting
`microRipple = true`.  Note: it does not go through `addRipple`, so no cap is
enforced on this path. -/
def microSpawn (t : ℝ) (rs : List Ripple) (x y : ℝ) : List Ripple :=
  rs ++ [⟨x, y, t, true⟩]

/-- The per-frame evolution of the `ripples` pool inside `render()` of
src/src/main.js: the (randomly triggered) micro-disturbance spawn happens
first (lines 163-197), and only afterwards are dead ripples reaped by
`ripples = ripples.filter(r => r.alive)` (line 260).  `t` is the value of
`time` after the `time += 0.016` at the top of the frame; `micro` is `some`
position when the micro-disturbance fired and spawned a ripple this frame. -/
noncomputable def framePoolStep (t : ℝ) (micro : Option (ℝ × ℝ)) (rs : List Ripple) :
    List Ripple :=
  let afterSpawn := match micro with
    | some p => microSpawn t rs p.1 p.2
    | none => rs
  afterSpawn.filter fun r => decide (alive t r)

/-- Modelled from the spec's words (section 4.2, for comparison with
`framePoolStep`): the claimed per-frame order reap-then-spawn-then-cap —
first remove every dead source, then append the spawned source, then enforce
the population cap by evicting the oldest. -/
noncomputable def specReapSpawnCap (t : ℝ) (micro : Option (ℝ × ℝ)) (rs : List Ripple) :
    List Ripple :=
  let reaped := rs.filter fun r => decide (alive t r)
  let spawned := match micro with
    | some p => microSpawn t reaped p.1 p.2
    | none => reaped
  if spawned.length > MAX_RIPPLES then spawned.tail else spawned

/-- The ripple accumulation loop of `render()` (src/src/main.js lines
310-319): fold over the pool, adding each influence that is not exactly `0`
to `rippleSum` and counting it in `rippleCount`. -/
noncomputable def rippleAccum (t px py : ℝ) (rs : List Ripple) : ℝ × ℕ :=
  rs.foldl
    (fun acc r =>
      let influence := getInfluence t r px py
      if influence ≠ 0 then (acc.1 + influence, acc.2 + 1) else acc)
    (0, 0)

/-- The composite ripple contribution added to the cell's wave value
(src/src/main.js lines 321-326): the accumulated `rippleSum`, multiplied by
the interference boost `1 + (rippleCount - 1) * 0.4` when `rippleCount > 1`. -/
noncomputable def rippleContribution (t px py : ℝ) (rs : List Ripple) : ℝ :=
  let a := rippleAccum t px py rs
  if a.2 > 1 then a.1 * (1 + ((a.2 : ℝ) - 1) * 0.4) else a.1

/-- The ambient wave terms of `render()` (src/src/main.js lines 293-304):
breathing swell, the two wind-driven terms reading the mutable `windAngle`
and `windStrength` state, and the three organic pseudo-noise terms.
`nx`, `ny` are the cell's normalized coordinates and `t` the global time. -/
noncomputable def ambientWave (windAngle windStrength breathPhase nx ny t : ℝ) : ℝ :=
  let breathWave := Real.sin (breathPhase + nx * 2 + ny * 1.5) * 0.06
  let windWaveX := Real.sin (nx * 8 + t * windStrength * 2 + windAngle) * 0.04 * windStrength
  let windWaveY := Real.sin (ny * 6 + t * windStrength * 1.5 + windAngle * 0.7) * 0.04 * windStrength
  let organic1 := Real.sin (nx * 12.7 + ny * 4.3 + t * 0.7) * 0.03
  let organic2 := Real.sin (nx * 7.1 - ny * 9.2 + t * 0.4) * 0.025
  let organic3 := Real.sin (nx * 3.3 + ny * 5.7 - t * 0.55) * 0.02
  breathWave + windWaveX + windWaveY + organic1 + organic2 + organic3

end Main

namespace KelvinRain

/-- `const MAX_RIPPLES = 30` of the raindrop variant. -/
def MAX_RIPPLES : ℕ := 30

/-- `const RIPPLE_SPEED = 280` of the raindrop variant. -/
def RIPPLE_SPEED : ℝ := 280

/-- `const RIPPLE_LIFESPAN = 6` of the raindrop variant. -/
def RIPPLE_LIFESPAN : ℝ := 6

/-- `const WAKE_ANGLE = 0.33` (the Kelvin wake half-angle) of the raindrop
variant. -/
def WAKE_ANGLE : ℝ := 0.33

/-- The `Ripple` class of the raindrop variant (second file of
src/unnamed/part_003): position, birth time and type tag. -/
structure Ripple where
  x : ℝ
  y : ℝ
  birth : ℝ
  type : RippleType

/-- `get age() { return time - this.birth; }`. -/
noncomputable def age (t : ℝ) (r : Ripple) : ℝ := t - r.birth

/-- `get lifespan()`: wake ripples live `RIPPLE_LIFESPAN * 0.5`, others
`RIPPLE_LIFESPAN`. -/
noncomputable def lifespan (r : Ripple) : ℝ :=
  if r.type = RippleType.wake then RIPPLE_LIFESPAN * 0.5 else RIPPLE_LIFESPAN

/-- `get strength()`: linear fade scaled by `0.08` for wake and `0.25` for
micro ripples. -/
noncomputable def strength (t : ℝ) (r : Ripple) : ℝ :=
  let base := 1 - age t r / lifespan r
  if r.type = RippleType.wake then base * 0.08
  else if r.type = RippleType.micro then base * 0.25
  else base

/-- `get speed()`: wake ripples expand at `RIPPLE_SPEED * 0.6`. -/
noncomputable def speed (r : Ripple) : ℝ :=
  if r.type = RippleType.wake then RIPPLE_SPEED * 0.6 else RIPPLE_SPEED

/-- `getInfluence(px, py)` of the raindrop variant, including the
bounding-box pre-check on the coordinate deltas that rejects points with
`|ddx|` or `|ddy|` beyond `radius + ringWidth` before taking the square
root. -/
noncomputable def getInfluence (t : ℝ) (r : Ripple) (px py : ℝ) : ℝ :=
  let ddx := px - r.x
  let ddy := py - r.y
  let radius := age t r * speed r
  let ringWidth := if r.type = RippleType.wake then (60 : ℝ) else 120 + age t r * 50
  let bound := radius + ringWidth
  if ddx > bound ∨ ddx < -bound ∨ ddy > bound ∨ ddy < -bound then 0
  else
    let dist := Real.sqrt (ddx * ddx + ddy * ddy)
    let ringDist := |dist - radius|
    if ringDist > ringWidth then 0
    else
      let delta := dist - radius
      let wave := Real.sin (delta * 0.12) + Real.sin (delta * 0.2) * 0.45
      let falloff := 1 - ringDist / ringWidth
      wave * falloff * strength t r

/-- The exact circular test: the body of the raindrop variant's
`getInfluence` with the bounding-box pre-check removed (the reference
semantics the pre-checked version is compared against in the refinement
claim). -/
noncomputable def getInfluenceExact (t : ℝ) (r : Ripple) (px py : ℝ) : ℝ :=
  let ddx := px - r.x
  let ddy := py - r.y
  let radius := age t r * speed r
  let ringWidth := if r.type = RippleType.wake then (60 : ℝ) else 120 + age t r * 50
  let dist := Real.sqrt (ddx * ddx + ddy * ddy)
  let ringDist := |dist - radius|
  if ringDist > ringWidth then 0
  else
    let delta := dist - radius
    let wave := Real.sin (delta * 0.12) + Real.sin (delta * 0.2) * 0.45
    let falloff := 1 - ringDist / ringWidth
    wave * falloff * strength t r

/-- `Math.atan2(y, x)` modelled as the argument of the complex number
`x + y*i` (both have range `(-pi, pi]` and agree on all quadrants and
axes). -/
noncomputable def atan2 (y x : ℝ) : ℝ := Complex.arg ⟨x, y⟩

/-- The V-wake spawn step of the raindrop variant's `render()` (lines
416-444 of the second file of src/unnamed/part_003): once accumulated
pointer travel exceeds 40 px (and the frame's own movement exceeds 2 px),
spawn one wake ripple behind the cursor on each V arm, at
`moveAngle + pi ∓ WAKE_ANGLE`, 20 px from the pointer, and reset the
accumulated distance to `0`.  Returns the spawned positions and the new
`wakeDistance`. -/
noncomputable def wakeStep (mx my pmx pmy wakeDist : ℝ) : List (ℝ × ℝ) × ℝ :=
  if mx > 0 ∧ pmx > 0 then
    let dx := mx - pmx
    let dy := my - pmy
    let dist := Real.sqrt (dx * dx + dy * dy)
    let wd := wakeDist + dist
    if wd > 40 ∧ dist > 2 then
      let moveAngle := atan2 dy dx
      let leftAngle := moveAngle + Real.pi - WAKE_ANGLE
      let rightAngle := moveAngle + Real.pi + WAKE_ANGLE
      ([(mx + Real.cos leftAngle * 20, my + Real.sin leftAngle * 20),
        (mx + Real.cos rightAngle * 20, my + Real.sin rightAngle * 20)], 0)
    else ([], wd)
  else ([], wakeDist)

end KelvinRain

namespace VWake

/-- `const MAX_RIPPLES = 50` of src/unnamed/part_004. -/
def MAX_RIPPLES : ℕ := 50

/-- `const RIPPLE_SPEED = 280` of src/unnamed/part_004. -/
def RIPPLE_SPEED : ℝ := 280

/-- `const RIPPLE_LIFESPAN = 6` of src/unnamed/part_004. -/
def RIPPLE_LIFESPAN : ℝ := 6

/-- The `Ripple` class of src/unnamed/part_004: position, birth time and
type tag. -/
structure Ripple where
  x : ℝ
  y : ℝ
  birth : ℝ
  type : RippleType

/-- `get age() { return time - this.birth; }`. -/
noncomputable def age (t : ℝ) (r : Ripple) : ℝ := t - r.birth

/-- `get lifespan()`: wake ripples live `RIPPLE_LIFESPAN * 0.4`. -/
noncomputable def lifespan (r : Ripple) : ℝ :=
  if r.type = RippleType.wake then RIPPLE_LIFESPAN * 0.4 else RIPPLE_LIFESPAN

/-- The remaining-life fraction `1 - (r.age / r.lifespan)` computed inside
`addRipple` of src/unnamed/part_004. -/
noncomputable def remainingLife (t : ℝ) (r : Ripple) : ℝ :=
  1 - age t r / lifespan r

/-- The eviction scan of `addRipple` (src/unnamed/part_004 lines 94-108):
walk the pool keeping the index and value of the lowest remaining-life
fraction seen so far, updating on a strict `<`.  `i` is the index of the
head of the remaining list, `best` the `(lowestIdx, lowestLife)` pair. -/
noncomputable def scanMin (t : ℝ) : List Ripple → ℕ → ℕ × ℝ → ℕ × ℝ
  | [], _, best => best
  | r :: rest, i, best =>
    if remainingLife t r < best.2 then scanMin t rest (i + 1) (i, remainingLife t r)
    else scanMin t rest (i + 1) best

/-- The index the eviction scan selects.  The JS loop initializes
`lowestLife = Infinity`, so iteration 0 always replaces it; this is modelled
by seeding the scan with element 0's remaining life (the pool is nonempty at
every call site, since a ripple was just pushed). -/
noncomputable def lowestIdx (t : ℝ) : List Ripple → ℕ
  | [] => 0
  | r :: rest => (scanMin t rest 1 (0, remainingLife t r)).1

/-- `addRipple(x, y, type)` of src/unnamed/part_004: push the new ripple,
and when the pool exceeds `MAX_RIPPLES` splice out the ripple closest to
death (lowest remaining-life fraction). -/
noncomputable def addRipple (t : ℝ) (rs : List Ripple) (x y : ℝ) (ty : RippleType) :
    List Ripple :=
  let rs2 := rs ++ [⟨x, y, t, ty⟩]
  if rs2.length > MAX_RIPPLES then rs2.eraseIdx (lowestIdx t rs2) else rs2

end VWake

/-! Helper lemmas shared by several claims. -/

lemma pi5_lt_16 : 5 * Real.pi < 16 := by nlinarith [Real.pi_lt_d2]

lemma wave_const_pos : (0:ℝ) < 1 + 0.3 * (Real.sqrt 2 / 2) := by
  have h := Real.sqrt_nonneg 2
  nlinarith

lemma offset_falloff_pos (s : ℝ) (h0 : 0 ≤ s) :
    (0:ℝ) < 1 - 5 * Real.pi / (120 + s * 50) := by
  have hden : (0:ℝ) < 120 + s * 50 := by nlinarith
  rw [sub_pos, div_lt_one hden]
  nlinarith [Real.pi_lt_d2]

lemma main_strength_normal (t cx cy b : ℝ) :
    Main.strength t ⟨cx, cy, b, false⟩ = 1 - (t - b) / 6 := by
  simp [Main.strength, Main.age, Main.RIPPLE_LIFESPAN]

/-- Evaluation of `Main.getInfluence` when the point is inside the ring
band: the guard is false, so the harmonic-sum branch is taken. -/
lemma main_getInfluence_inband (t : ℝ) (r : Main.Ripple) (px py dist : ℝ)
    (hd : Real.sqrt ((px - r.x) ^ 2 + (py - r.y) ^ 2) = dist)
    (hband : |dist - Main.age t r * Main.RIPPLE_SPEED| ≤ 120 + Main.age t r * 50) :
    Main.getInfluence t r px py =
      (Real.sin ((dist - Main.age t r * Main.RIPPLE_SPEED) * 0.1)
        + Real.sin ((dist - Main.age t r * Main.RIPPLE_SPEED) * 0.2) * 0.5
        + Real.sin ((dist - Main.age t r * Main.RIPPLE_SPEED) * 0.05) * 0.3)
      * (1 - |dist - Main.age t r * Main.RIPPLE_SPEED| / (120 + Main.age t r * 50))
      * Main.strength t r := by
  simp only [Main.getInfluence, hd]
  rw [if_neg (not_lt.mpr hband)]

/-- Value of `Main.getInfluence` at the point on the x-axis whose distance
from the ripple's origin exceeds the current ring radius by exactly
`5 * pi`: the three harmonics evaluate at `pi/2`, `pi` and `pi/4`. -/
lemma main_getInfluence_offset (t b cx cy px : ℝ) (m : Bool) (h0 : 0 ≤ t - b)
    (hpx : px = cx + ((t - b) * 280 + 5 * Real.pi)) :
    Main.getInfluence t ⟨cx, cy, b, m⟩ px cy =
      (1 + 0.3 * (Real.sqrt 2 / 2)) * (1 - 5 * Real.pi / (120 + (t - b) * 50)) *
        Main.strength t ⟨cx, cy, b, m⟩ := by
  have hpi := Real.pi_pos
  have hA : (0:ℝ) ≤ (t - b) * 280 + 5 * Real.pi := by nlinarith
  have hage : Main.age t (⟨cx, cy, b, m⟩ : Main.Ripple) = t - b := rfl
  have hd : Real.sqrt ((px - (⟨cx, cy, b, m⟩ : Main.Ripple).x) ^ 2 +
      (cy - (⟨cx, cy, b, m⟩ : Main.Ripple).y) ^ 2) = (t - b) * 280 + 5 * Real.pi := by
    show Real.sqrt ((px - cx) ^ 2 + (cy - cy) ^ 2) = (t - b) * 280 + 5 * Real.pi
    rw [hpx, show cx + ((t - b) * 280 + 5 * Real.pi) - cx = (t - b) * 280 + 5 * Real.pi
      from by ring, sub_self cy]
    rw [show ((t - b) * 280 + 5 * Real.pi) ^ 2 + (0:ℝ) ^ 2 =
      ((t - b) * 280 + 5 * Real.pi) ^ 2 from by ring]
    exact Real.sqrt_sq hA
  have hdelta : (t - b) * 280 + 5 * Real.pi -
      Main.age t (⟨cx, cy, b, m⟩ : Main.Ripple) * Main.RIPPLE_SPEED = 5 * Real.pi := by
    rw [hage, Main.RIPPLE_SPEED]; ring
  have hband : |(t - b) * 280 + 5 * Real.pi -
      Main.age t (⟨cx, cy, b, m⟩ : Main.Ripple) * Main.RIPPLE_SPEED| ≤
      120 + Main.age t (⟨cx, cy, b, m⟩ : Main.Ripple) * 50 := by
    rw [hdelta, hage, abs_of_nonneg (by positivity)]
    nlinarith [Real.pi_lt_d2]
  rw [main_getInfluence_inband t _ px cy ((t - b) * 280 + 5 * Real.pi) hd hband,
    hdelta, hage]
  rw [abs_of_nonneg (by positivity : (0:ℝ) ≤ 5 * Real.pi)]
  rw [show 5 * Real.pi * (0.1:ℝ) = Real.pi / 2 from by ring,
    show 5 * Real.pi * (0.2:ℝ) = Real.pi from by ring,
    show 5 * Real.pi * (0.05:ℝ) = Real.pi / 4 from by ring,
    Real.sin_pi_div_two, Real.sin_pi, Real.sin_pi_div_four]
  ring

/-- C1 counterexample: a ripple aged 12 (twice its lifespan) still returns a
nonzero influence at a point `5 * pi` beyond its ring radius, because
`strength` has gone negative (`1 - 12/6 = -1`) rather than clamping at 0. -/
theorem claim_C1_counterexample :
    Main.RIPPLE_LIFESPAN ≤ Main.age 12 ⟨0, 0, 0, false⟩ ∧
      Main.getInfluence 12 ⟨0, 0, 0, false⟩ (12 * 280 + 5 * Real.pi) 0 ≠ 0 := by
  constructor
  · show (6:ℝ) ≤ 12 - 0
    norm_num
  · rw [main_getInfluence_offset 12 0 0 0 (12 * 280 + 5 * Real.pi) false (by norm_num)
      (by ring), main_strength_normal]
    have h1 := wave_const_pos
    have h2 := offset_falloff_pos (12 - 0) (by norm_num)
    have h3 : (1:ℝ) - (12 - 0) / 6 = -1 := by norm_num
    rw [h3]
    have : (0:ℝ) < (1 + 0.3 * (Real.sqrt 2 / 2)) * (1 - 5 * Real.pi / (120 + (12 - 0) * 50)) :=
      mul_pos h1 h2
    intro hc
    nlinarith

/-- C1 (amended): `alive` is false exactly when `age ≥ lifespan` (it is
literally `age < RIPPLE_LIFESPAN`, no off-by-one), and at the death instant
`age = lifespan` the influence is exactly 0 because `strength` vanishes; for
ages strictly beyond the lifespan the influence can be nonzero (see the
counterexample), but such ripples are reaped by the frame filter before any
influence evaluation. -/
theorem claim_C1_alive_death_instant (t : ℝ) (r : Main.Ripple) (px py : ℝ)
    (h : Main.RIPPLE_LIFESPAN ≤ Main.age t r) :
    ¬ Main.alive t r ∧ (Main.alive t r ↔ Main.age t r < Main.RIPPLE_LIFESPAN) ∧
      (Main.age t r = Main.RIPPLE_LIFESPAN → Main.getInfluence t r px py = 0) := by
  refine ⟨not_lt.mpr h, Iff.rfl, fun h6 => ?_⟩
  have hs : Main.strength t r = 0 := by
    simp [Main.strength, h6, Main.RIPPLE_LIFESPAN]
  simp only [Main.getInfluence]
  split_ifs with hcond
  · rfl
  · rw [hs, mul_zero]

theorem claim_C1_alive_death_instant_witness :
    (Main.RIPPLE_LIFESPAN ≤ Main.age 6 ⟨0, 0, 0, false⟩) ∧
      (¬ Main.alive 6 ⟨0, 0, 0, false⟩ ∧
        (Main.alive 6 ⟨0, 0, 0, false⟩ ↔
          Main.age 6 ⟨0, 0, 0, false⟩ < Main.RIPPLE_LIFESPAN) ∧
        (Main.age 6 ⟨0, 0, 0, false⟩ = Main.RIPPLE_LIFESPAN →
          Main.getInfluence 6 ⟨0, 0, 0, false⟩ 0 0 = 0)) :=
  ⟨by norm_num [Main.RIPPLE_LIFESPAN, Main.age],
   claim_C1_alive_death_instant 6 ⟨0, 0, 0, false⟩ 0 0
     (by norm_num [Main.RIPPLE_LIFESPAN, Main.age])⟩

/-- C2 counterexample: the ambient micro-disturbance spawn of src/src/main.js
pushes directly into `ripples` without any cap check, so inserting into a
pool that already holds `MAX_RIPPLES = 20` live ripples leaves 21. -/
theorem claim_C2_counterexample :
    (Main.microSpawn 1 (List.replicate 20 ⟨0, 0, 0, false⟩) 5 5).length = 21 ∧
      Main.MAX_RIPPLES < 21 := by
  constructor
  · simp [Main.microSpawn]
  · norm_num [Main.MAX_RIPPLES]

/-- C2 (amended): insertions that go through `addRipple` (clicks and touches)
do keep the population at or below `MAX_RIPPLES`, but the ambient
micro-disturbance spawn bypasses `addRipple` and can push the population
above the cap (see the counterexample). -/
theorem claim_C2_addRipple_cap (t : ℝ) (rs : List Main.Ripple) (x y : ℝ)
    (h : rs.length ≤ Main.MAX_RIPPLES) :
    (Main.addRipple t rs x y).length ≤ Main.MAX_RIPPLES := by
  unfold Main.addRipple
  norm_num [Main.MAX_RIPPLES] at h ⊢
  split_ifs with hc
  · simp only [List.length_tail, List.length_append, List.length_cons, List.length_nil]
    omega
  · simp only [List.length_append, List.length_cons, List.length_nil]
    omega

theorem claim_C2_addRipple_cap_witness :
    (List.replicate 20 (⟨0, 0, 0, false⟩ : Main.Ripple)).length ≤ Main.MAX_RIPPLES ∧
      (Main.addRipple 1 (List.replicate 20 ⟨0, 0, 0, false⟩) 5 5).length ≤
        Main.MAX_RIPPLES :=
  ⟨by simp [Main.MAX_RIPPLES],
   claim_C2_addRipple_cap 1 _ 5 5 (by simp [Main.MAX_RIPPLES])⟩

/-- At the point whose distance from the ripple origin equals the current
ring radius exactly, every harmonic of the signed offset vanishes, so the
influence is 0. -/
lemma main_influence_ring_center_zero :
    Main.getInfluence 1 ⟨100, 100, 0, false⟩ 380 100 = 0 := by
  have hd : Real.sqrt (((380:ℝ) - (⟨100, 100, 0, false⟩ : Main.Ripple).x) ^ 2 +
      ((100:ℝ) - (⟨100, 100, 0, false⟩ : Main.Ripple).y) ^ 2) = 280 := by
    show Real.sqrt (((380:ℝ) - 100) ^ 2 + ((100:ℝ) - 100) ^ 2) = 280
    rw [show ((380:ℝ) - 100) ^ 2 + ((100:ℝ) - 100) ^ 2 = 280 ^ 2 from by norm_num]
    exact Real.sqrt_sq (by norm_num)
  have hage : Main.age 1 (⟨100, 100, 0, false⟩ : Main.Ripple) = 1 := by
    norm_num [Main.age]
  have hband : |(280:ℝ) - Main.age 1 ⟨100, 100, 0, false⟩ * Main.RIPPLE_SPEED| ≤
      120 + Main.age 1 ⟨100, 100, 0, false⟩ * 50 := by
    rw [hage]
    norm_num [Main.RIPPLE_SPEED]
  rw [main_getInfluence_inband 1 _ 380 100 280 hd hband, hage]
  norm_num [Main.RIPPLE_SPEED]

/-- C6 counterexample: for the ripple spawned at `(100,100)` at time 0,
evaluated at time 1 at the point `(380,100)` — distance exactly
`280 = 1 * RIPPLE_SPEED` from the origin — the influence is exactly `0`, not
nonzero: the signed offset `dist - radius` is `0`, so every harmonic
`sin(k * 0)` vanishes. -/
theorem claim_C6_counterexample :
    Main.getInfluence 1 ⟨100, 100, 0, false⟩ 380 100 = 0 :=
  main_influence_ring_center_zero

/-- C6 (amended): the end-to-end scenario does land inside the ring band —
`ringDist = 0 ≤ ringWidth = 170` — but the influence there is exactly `0`,
because every harmonic of the signed offset vanishes at offset 0; just off
the ring (distance `280 + 5 * pi` from the origin) the influence is nonzero
with positive sign, computable from the harmonic sum. -/
theorem claim_C6_ring_center :
    |(280:ℝ) - Main.age 1 ⟨100, 100, 0, false⟩ * Main.RIPPLE_SPEED| ≤
        120 + Main.age 1 ⟨100, 100, 0, false⟩ * 50 ∧
      Real.sqrt (((380:ℝ) - 100) ^ 2 + ((100:ℝ) - 100) ^ 2) = 280 ∧
      Main.getInfluence 1 ⟨100, 100, 0, false⟩ 380 100 = 0 ∧
      0 < Main.getInfluence 1 ⟨100, 100, 0, false⟩ (100 + (280 + 5 * Real.pi)) 100 := by
  have hage : Main.age 1 (⟨100, 100, 0, false⟩ : Main.Ripple) = 1 := by
    norm_num [Main.age]
  refine ⟨?_, ?_, ?_, ?_⟩
  · rw [hage]; norm_num [Main.RIPPLE_SPEED]
  · rw [show ((380:ℝ) - 100) ^ 2 + ((100:ℝ) - 100) ^ 2 = 280 ^ 2 from by norm_num]
    exact Real.sqrt_sq (by norm_num)
  · exact main_influence_ring_center_zero
  · rw [main_getInfluence_offset 1 0 100 100 (100 + (280 + 5 * Real.pi)) false
      (by norm_num) (by ring), main_strength_normal]
    have h3 : (1:ℝ) - (1 - 0) / 6 = 5 / 6 := by norm_num
    rw [h3]
    exact mul_pos (mul_pos wave_const_pos (offset_falloff_pos (1 - 0) (by norm_num)))
      (by norm_num)

/-- C7 counterexample: with identical normalized coordinates `(0,0)` and
identical time `0`, two different hidden wind states (angle `pi/2`, strength
`1` versus angle `0`, strength `0`) give different ambient wave values — the
wind random-walk state leaks into the ambient term. -/
theorem claim_C7_counterexample :
    Main.ambientWave (Real.pi / 2) 1 0 0 0 0 ≠ Main.ambientWave 0 0 0 0 0 0 := by
  have hR : Main.ambientWave 0 0 0 0 0 0 = 0 := by
    norm_num [Main.ambientWave, Real.sin_zero]
  have hsin : (0:ℝ) ≤ Real.sin (Real.pi / 2 * 0.7) := by
    apply Real.sin_nonneg_of_nonneg_of_le_pi
    · positivity
    · nlinarith [Real.pi_pos]
  have hL : 0 < Main.ambientWave (Real.pi / 2) 1 0 0 0 0 := by
    simp only [Main.ambientWave]
    norm_num [Real.sin_zero, Real.sin_pi_div_two]
    nlinarith
  rw [hR]
  exact ne_of_gt hL

/-- C7 (amended): the ambient per-cell wave value is a pure function of the
normalized coordinates, the time, and the hidden wind/breath state; the wind
state is mutable random-walk state, so purity in (coordinates, time) alone
fails (see the counterexample).  The wind angle is irrelevant exactly when
the wind strength is 0. -/
theorem claim_C7_wind_zero_pure (nx ny t bp wa1 wa2 : ℝ) :
    Main.ambientWave wa1 0 bp nx ny t = Main.ambientWave wa2 0 bp nx ny t := by
  simp [Main.ambientWave]

lemma main_strength_bounds (t : ℝ) (r : Main.Ripple) (h0 : 0 ≤ Main.age t r)
    (h1 : Main.age t r ≤ Main.RIPPLE_LIFESPAN) :
    0 ≤ Main.strength t r ∧ Main.strength t r ≤ 1 := by
  rw [Main.RIPPLE_LIFESPAN] at h1
  have hq0 : 0 ≤ Main.age t r / 6 := by positivity
  have hq1 : Main.age t r / 6 ≤ 1 := (div_le_one (by norm_num)).mpr h1
  simp only [Main.strength, Main.RIPPLE_LIFESPAN]
  split_ifs with hm
  · constructor <;> nlinarith
  · constructor <;> nlinarith

/-- C10: for any ripple within its lifetime, the influence scalar is bounded
in absolute value by `1.8 = 1 + 0.5 + 0.3` — the harmonic amplitudes times a
radial falloff in `[0,1]` times a strength in `[0,1]` — at every evaluation
point, including the ripple's own origin (where the embedding is total:
`sqrt 0 = 0`). -/
theorem claim_C10_influence_bound (t : ℝ) (r : Main.Ripple) (px py : ℝ)
    (h0 : 0 ≤ Main.age t r) (h1 : Main.age t r ≤ Main.RIPPLE_LIFESPAN) :
    |Main.getInfluence t r px py| ≤ 1.8 := by
  obtain ⟨hs0, hs1⟩ := main_strength_bounds t r h0 h1
  simp only [Main.getInfluence]
  split_ifs with hcond
  · norm_num
  · push_neg at hcond
    set d := Real.sqrt ((px - r.x) ^ 2 + (py - r.y) ^ 2) - Main.age t r * Main.RIPPLE_SPEED
      with hd
    set W := 120 + Main.age t r * 50 with hW
    have hWpos : (0:ℝ) < W := by rw [hW]; nlinarith
    have hf0 : 0 ≤ 1 - |d| / W := by
      rw [sub_nonneg]
      exact (div_le_one hWpos).mpr hcond
    have hf1 : 1 - |d| / W ≤ 1 := by
      have : 0 ≤ |d| / W := div_nonneg (abs_nonneg d) hWpos.le
      linarith
    have hw : |Real.sin (d * 0.1) + Real.sin (d * 0.2) * 0.5 + Real.sin (d * 0.05) * 0.3| ≤
        1.8 := by
      have a1 : |Real.sin (d * 0.1)| ≤ 1 := Real.abs_sin_le_one _
      have a2 : |Real.sin (d * 0.2)| ≤ 1 := Real.abs_sin_le_one _
      have a3 : |Real.sin (d * 0.05)| ≤ 1 := Real.abs_sin_le_one _
      calc |Real.sin (d * 0.1) + Real.sin (d * 0.2) * 0.5 + Real.sin (d * 0.05) * 0.3|
          ≤ |Real.sin (d * 0.1)| + |Real.sin (d * 0.2) * 0.5| + |Real.sin (d * 0.05) * 0.3| :=
            abs_add_three _ _ _
        _ ≤ 1 + 1 * 0.5 + 1 * 0.3 := by
            rw [abs_mul, abs_mul, show |(0.5:ℝ)| = 0.5 from by norm_num,
              show |(0.3:ℝ)| = 0.3 from by norm_num]
            gcongr
        _ = 1.8 := by norm_num
    rw [abs_mul, abs_mul, abs_of_nonneg hf0, abs_of_nonneg hs0]
    calc |Real.sin (d * 0.1) + Real.sin (d * 0.2) * 0.5 + Real.sin (d * 0.05) * 0.3| *
          (1 - |d| / W) * Main.strength t r
        ≤ 1.8 * 1 * 1 := by
          apply mul_le_mul _ hs1 hs0 (by norm_num)
          apply mul_le_mul hw hf1 hf0 (by norm_num)
      _ = 1.8 := by norm_num

theorem claim_C10_influence_bound_witness :
    (0 ≤ Main.age 1 ⟨0, 0, 0, false⟩ ∧
        Main.age 1 ⟨0, 0, 0, false⟩ ≤ Main.RIPPLE_LIFESPAN) ∧
      |Main.getInfluence 1 ⟨0, 0, 0, false⟩ 0 0| ≤ 1.8 :=
  ⟨⟨by norm_num [Main.age], by norm_num [Main.age, Main.RIPPLE_LIFESPAN]⟩,
   claim_C10_influence_bound 1 ⟨0, 0, 0, false⟩ 0 0 (by norm_num [Main.age])
     (by norm_num [Main.age, Main.RIPPLE_LIFESPAN])⟩

/-- C5: (a) whenever the evaluation point's distance from a ripple's origin
exceeds `radius + ringWidth`, `Main.getInfluence` returns exactly 0; and
(b) the raindrop variant's `getInfluence`, whose bounding-box pre-check on
the coordinate deltas rejects before taking the square root, agrees with the
exact circular test at every ripple and every point — the box only rejects
points the exact test also rejects. -/
theorem claim_C5_far_zero_and_bbox_equiv (t px py : ℝ) (rm : Main.Ripple)
    (rk : KelvinRain.Ripple) :
    (Real.sqrt ((px - rm.x) ^ 2 + (py - rm.y) ^ 2) >
        Main.age t rm * Main.RIPPLE_SPEED + (120 + Main.age t rm * 50) →
      Main.getInfluence t rm px py = 0) ∧
    KelvinRain.getInfluence t rk px py = KelvinRain.getInfluenceExact t rk px py := by
  constructor
  · intro h
    simp only [Main.getInfluence]
    rw [if_pos]
    calc 120 + Main.age t rm * 50
        < Real.sqrt ((px - rm.x) ^ 2 + (py - rm.y) ^ 2) -
            Main.age t rm * Main.RIPPLE_SPEED := by linarith
      _ ≤ |Real.sqrt ((px - rm.x) ^ 2 + (py - rm.y) ^ 2) -
            Main.age t rm * Main.RIPPLE_SPEED| := le_abs_self _
  · simp only [KelvinRain.getInfluence, KelvinRain.getInfluenceExact]
    set ddx := px - rk.x with hddx
    set ddy := py - rk.y with hddy
    set radius := KelvinRain.age t rk * KelvinRain.speed rk with hrad
    set ringWidth :=
      if rk.type = RippleType.wake then (60:ℝ) else 120 + KelvinRain.age t rk * 50
      with hrw
    have hax : |ddx| ≤ Real.sqrt (ddx * ddx + ddy * ddy) := by
      rw [← Real.sqrt_sq_eq_abs]
      apply Real.sqrt_le_sqrt
      nlinarith [sq_nonneg ddy]
    have hay : |ddy| ≤ Real.sqrt (ddx * ddx + ddy * ddy) := by
      rw [← Real.sqrt_sq_eq_abs]
      apply Real.sqrt_le_sqrt
      nlinarith [sq_nonneg ddx]
    split_ifs with hbox hin hin2
    · rfl
    · exfalso
      have hfar : radius + ringWidth < Real.sqrt (ddx * ddx + ddy * ddy) := by
        rcases hbox with h | h | h | h
        · calc radius + ringWidth < ddx := h
            _ ≤ |ddx| := le_abs_self ddx
            _ ≤ _ := hax
        · calc radius + ringWidth < -ddx := by linarith
            _ ≤ |ddx| := neg_le_abs ddx
            _ ≤ _ := hax
        · calc radius + ringWidth < ddy := h
            _ ≤ |ddy| := le_abs_self ddy
            _ ≤ _ := hay
        · calc radius + ringWidth < -ddy := by linarith
            _ ≤ |ddy| := neg_le_abs ddy
            _ ≤ _ := hay
      exact hin
        (calc ringWidth < Real.sqrt (ddx * ddx + ddy * ddy) - radius := by linarith
          _ ≤ |Real.sqrt (ddx * ddx + ddy * ddy) - radius| := le_abs_self _)
    · rfl
    · rfl

theorem claim_C5_far_zero_and_bbox_equiv_witness :
    (Real.sqrt (((200:ℝ) - 0) ^ 2 + ((0:ℝ) - 0) ^ 2) >
        Main.age 0 ⟨0, 0, 0, false⟩ * Main.RIPPLE_SPEED +
          (120 + Main.age 0 ⟨0, 0, 0, false⟩ * 50)) ∧
      Main.getInfluence 0 ⟨0, 0, 0, false⟩ 200 0 = 0 := by
  have hs : Real.sqrt (((200:ℝ) - 0) ^ 2 + ((0:ℝ) - 0) ^ 2) = 200 := by
    rw [show ((200:ℝ) - 0) ^ 2 + ((0:ℝ) - 0) ^ 2 = 200 ^ 2 from by norm_num]
    exact Real.sqrt_sq (by norm_num)
  have hgt : Real.sqrt (((200:ℝ) - 0) ^ 2 + ((0:ℝ) - 0) ^ 2) >
      Main.age 0 ⟨0, 0, 0, false⟩ * Main.RIPPLE_SPEED +
        (120 + Main.age 0 ⟨0, 0, 0, false⟩ * 50) := by
    rw [hs]
    norm_num [Main.age, Main.RIPPLE_SPEED]
  exact ⟨hgt,
    (claim_C5_far_zero_and_bbox_equiv 0 200 0 ⟨0, 0, 0, false⟩
      ⟨0, 0, 0, RippleType.normal⟩).1 hgt⟩

lemma main_alive_mk (t cx cy b : ℝ) (m : Bool) (h : t - b < 6) :
    Main.alive t ⟨cx, cy, b, m⟩ := by
  show Main.age t _ < Main.RIPPLE_LIFESPAN
  norm_num [Main.age, Main.RIPPLE_LIFESPAN]
  exact h

/-- C4 counterexample: the render loop of src/src/main.js spawns before it
reaps and its micro spawn performs no cap enforcement, so on a pool of 20
live ripples a frame with a micro spawn leaves 21 ripples, while the claimed
reap-then-spawn-then-cap order would leave 20 — the two frame disciplines
disagree on a concrete state. -/
theorem claim_C4_counterexample :
    Main.framePoolStep 1 (some (5, 5)) (List.replicate 20 ⟨0, 0, 0, false⟩) ≠
      Main.specReapSpawnCap 1 (some (5, 5)) (List.replicate 20 ⟨0, 0, 0, false⟩) := by
  have hmem : ∀ a ∈ List.replicate 20 (⟨0, 0, 0, false⟩ : Main.Ripple) ++
      [(⟨5, 5, 1, true⟩ : Main.Ripple)], decide (Main.alive 1 a) = true := by
    intro a ha
    rcases List.mem_append.mp ha with h | h
    · rw [List.eq_of_mem_replicate h]
      exact decide_eq_true (main_alive_mk 1 0 0 0 false (by norm_num))
    · rw [List.mem_singleton.mp h]
      exact decide_eq_true (main_alive_mk 1 5 5 1 true (by norm_num))
  have hmem2 : ∀ a ∈ List.replicate 20 (⟨0, 0, 0, false⟩ : Main.Ripple),
      decide (Main.alive 1 a) = true := by
    intro a ha
    rw [List.eq_of_mem_replicate ha]
    exact decide_eq_true (main_alive_mk 1 0 0 0 false (by norm_num))
  have h1 : (Main.framePoolStep 1 (some (5, 5))
      (List.replicate 20 ⟨0, 0, 0, false⟩)).length = 21 := by
    unfold Main.framePoolStep Main.microSpawn
    rw [List.filter_eq_self.mpr hmem]
    simp
  have h2 : (Main.specReapSpawnCap 1 (some (5, 5))
      (List.replicate 20 ⟨0, 0, 0, false⟩)).length = 20 := by
    unfold Main.specReapSpawnCap Main.microSpawn
    rw [List.filter_eq_self.mpr hmem2]
    rw [if_pos (by simp [Main.MAX_RIPPLES])]
    simp
  intro heq
  rw [heq, h2] at h1
  exact absurd h1 (by norm_num)

/-- C4 (amended): each frame of src/src/main.js spawns first and reaps
afterwards — new sources are appended while dead ones may still sit in the
pool, the micro-spawn path performs no cap enforcement, and the reap at the
end of the frame removes every dead source: everything that survives
`framePoolStep` is alive. -/
theorem claim_C4_reap_after_spawn (t : ℝ) (micro : Option (ℝ × ℝ))
    (rs : List Main.Ripple) (r : Main.Ripple)
    (h : r ∈ Main.framePoolStep t micro rs) :
    Main.alive t r := by
  simp only [Main.framePoolStep] at h
  have hp := List.of_mem_filter h
  simp only [decide_eq_true_eq] at hp
  exact hp

theorem claim_C4_reap_after_spawn_witness :
    ((⟨0, 0, 0, false⟩ : Main.Ripple) ∈ Main.framePoolStep 1 none [⟨0, 0, 0, false⟩]) ∧
      Main.alive 1 ⟨0, 0, 0, false⟩ := by
  have hmem : (⟨0, 0, 0, false⟩ : Main.Ripple) ∈
      Main.framePoolStep 1 none [⟨0, 0, 0, false⟩] := by
    unfold Main.framePoolStep
    rw [List.filter_eq_self.mpr ?_]
    · exact List.mem_singleton.mpr rfl
    · intro a ha
      rw [List.mem_singleton.mp ha]
      exact decide_eq_true (main_alive_mk 1 0 0 0 false (by norm_num))
  exact ⟨hmem, claim_C4_reap_after_spawn 1 none _ _ hmem⟩

/-- The accumulation loop computes the sum and the count of the nonzero
influences: folding the pool from `(a, c)` adds the filtered influences'
sum to `a` and their number to `c`. -/
lemma rippleAccum_go (t px py : ℝ) (rs : List Main.Ripple) (a : ℝ) (c : ℕ) :
    rs.foldl
      (fun acc r =>
        let influence := Main.getInfluence t r px py
        if influence ≠ 0 then (acc.1 + influence, acc.2 + 1) else acc)
      (a, c) =
    (a + ((rs.map fun r => Main.getInfluence t r px py).filter fun v => decide (v ≠ 0)).sum,
     c + ((rs.map fun r => Main.getInfluence t r px py).filter fun v => decide (v ≠ 0)).length) := by
  induction rs generalizing a c with
  | nil => simp
  | cons r rest ih =>
    simp only [List.foldl_cons, List.map_cons, List.filter_cons]
    by_cases hv : Main.getInfluence t r px py ≠ 0
    · rw [if_pos hv, ih, if_pos (decide_eq_true hv)]
      simp only [List.sum_cons, List.length_cons]
      refine Prod.ext ?_ ?_
      · show a + Main.getInfluence t r px py + _ = a + _
        ring
      · show c + 1 + _ = c + _
        omega
    · rw [if_neg hv, ih, if_neg (by simpa using hv)]

lemma rippleAccum_eq (t px py : ℝ) (rs : List Main.Ripple) :
    Main.rippleAccum t px py rs =
      (((rs.map fun r => Main.getInfluence t r px py).filter fun v => decide (v ≠ 0)).sum,
       ((rs.map fun r => Main.getInfluence t r px py).filter fun v => decide (v ≠ 0)).length) := by
  unfold Main.rippleAccum
  rw [rippleAccum_go]
  simp

/-- C3: if exactly two ripples of the pool yield nonzero influences `v1` and
`v2` at the cell, the composite ripple contribution is
`(v1 + v2) * (1 + 1 * 0.4)` — the interference constant is `k = 0.4` and
ripples with influence exactly 0 are not counted in the overlap count. -/
theorem claim_C3_interference (t px py v1 v2 : ℝ) (rs : List Main.Ripple)
    (h : ((rs.map fun r => Main.getInfluence t r px py).filter fun v => decide (v ≠ 0)) =
      [v1, v2]) :
    Main.rippleContribution t px py rs = (v1 + v2) * (1 + 1 * 0.4) := by
  simp only [Main.rippleContribution]
  rw [rippleAccum_eq, h]
  norm_num

theorem claim_C3_interference_witness :
    ((([⟨0, 0, 0, false⟩, ⟨0, 0, 0, false⟩] : List Main.Ripple).map
        fun r => Main.getInfluence 1 r (280 + 5 * Real.pi) 0).filter
        fun v => decide (v ≠ 0)) =
      [Main.getInfluence 1 ⟨0, 0, 0, false⟩ (280 + 5 * Real.pi) 0,
       Main.getInfluence 1 ⟨0, 0, 0, false⟩ (280 + 5 * Real.pi) 0] ∧
    Main.rippleContribution 1 (280 + 5 * Real.pi) 0 [⟨0, 0, 0, false⟩, ⟨0, 0, 0, false⟩] =
      (Main.getInfluence 1 ⟨0, 0, 0, false⟩ (280 + 5 * Real.pi) 0 +
        Main.getInfluence 1 ⟨0, 0, 0, false⟩ (280 + 5 * Real.pi) 0) * (1 + 1 * 0.4) := by
  have hv : Main.getInfluence 1 ⟨0, 0, 0, false⟩ (280 + 5 * Real.pi) 0 ≠ 0 := by
    rw [main_getInfluence_offset 1 0 0 0 (280 + 5 * Real.pi) false (by norm_num) (by ring),
      main_strength_normal]
    have h3 : (1:ℝ) - (1 - 0) / 6 = 5 / 6 := by norm_num
    rw [h3]
    exact ne_of_gt (mul_pos (mul_pos wave_const_pos
      (offset_falloff_pos (1 - 0) (by norm_num))) (by norm_num))
  have hfil : ((([⟨0, 0, 0, false⟩, ⟨0, 0, 0, false⟩] : List Main.Ripple).map
      fun r => Main.getInfluence 1 r (280 + 5 * Real.pi) 0).filter
      fun v => decide (v ≠ 0)) =
      [Main.getInfluence 1 ⟨0, 0, 0, false⟩ (280 + 5 * Real.pi) 0,
       Main.getInfluence 1 ⟨0, 0, 0, false⟩ (280 + 5 * Real.pi) 0] := by
    simp only [List.map_cons, List.map_nil, List.filter_cons, List.filter_nil]
    rw [if_pos (decide_eq_true hv), if_pos (decide_eq_true hv)]
  exact ⟨hfil, claim_C3_interference 1 (280 + 5 * Real.pi) 0 _ _ _ hfil⟩

/-- The eviction scan's running minimum never goes above its seed value. -/
lemma scanMin_snd_le_init (t : ℝ) (l : List VWake.Ripple) (i : ℕ) (b : ℕ × ℝ) :
    (VWake.scanMin t l i b).2 ≤ b.2 := by
  induction l generalizing i b with
  | nil => simp [VWake.scanMin]
  | cons a rest ih =>
    simp only [VWake.scanMin]
    split_ifs with hlt
    · exact le_trans (ih (i + 1) (i, VWake.remainingLife t a)) (le_of_lt hlt)
    · exact ih (i + 1) b

/-- The eviction scan's final minimum is at most the remaining life of every
scanned ripple. -/
lemma scanMin_snd_le_mem (t : ℝ) (l : List VWake.Ripple) (i : ℕ) (b : ℕ × ℝ)
    (r : VWake.Ripple) (hr : r ∈ l) :
    (VWake.scanMin t l i b).2 ≤ VWake.remainingLife t r := by
  induction l generalizing i b with
  | nil => cases hr
  | cons a rest ih =>
    simp only [VWake.scanMin]
    rcases List.mem_cons.mp hr with rfl | hr2
    · split_ifs with hlt
      · exact scanMin_snd_le_init t rest (i + 1) (i, VWake.remainingLife t r)
      · exact le_trans (scanMin_snd_le_init t rest (i + 1) b) (not_lt.mp hlt)
    · split_ifs with hlt
      · exact ih (i + 1) (i, VWake.remainingLife t a) hr2
      · exact ih (i + 1) b hr2

/-- The eviction scan returns either its seed pair or the pair formed by the
index (offset by `i`) and remaining life of some scanned element. -/
lemma scanMin_result (t : ℝ) (l : List VWake.Ripple) (i : ℕ) (b : ℕ × ℝ) :
    VWake.scanMin t l i b = b ∨
      ∃ k, ∃ hk : k < l.length,
        VWake.scanMin t l i b = (k + i, VWake.remainingLife t (l.get ⟨k, hk⟩)) := by
  induction l generalizing i b with
  | nil => left; simp [VWake.scanMin]
  | cons a rest ih =>
    simp only [VWake.scanMin]
    split_ifs with hlt
    · rcases ih (i + 1) (i, VWake.remainingLife t a) with heq | ⟨k, hk, heq⟩
      · right
        refine ⟨0, by simp, ?_⟩
        rw [heq]
        refine Prod.ext ?_ rfl
        omega
      · right
        refine ⟨k + 1, by simp only [List.length_cons]; omega, ?_⟩
        rw [heq]
        refine Prod.ext ?_ rfl
        show k + (i + 1) = k + 1 + i
        omega
    · rcases ih (i + 1) b with heq | ⟨k, hk, heq⟩
      · left; exact heq
      · right
        refine ⟨k + 1, by simp only [List.length_cons]; omega, ?_⟩
        rw [heq]
        refine Prod.ext ?_ rfl
        show k + (i + 1) = k + 1 + i
        omega

/-- The index selected by the eviction scan is in bounds for a nonempty
pool. -/
lemma lowestIdx_lt (t : ℝ) (l : List VWake.Ripple) (hne : l ≠ []) :
    VWake.lowestIdx t l < l.length := by
  cases l with
  | nil => exact absurd rfl hne
  | cons a rest =>
    simp only [VWake.lowestIdx]
    rcases scanMin_result t rest 1 (0, VWake.remainingLife t a) with heq | ⟨k, hk, heq⟩
    · rw [heq]; simp
    · rw [heq]; simp only [List.length_cons]; omega

/-- The element at the selected index exists and carries exactly the scan's
final minimum remaining life. -/
lemma lowestIdx_spec (t : ℝ) (a : VWake.Ripple) (rest : List VWake.Ripple) :
    ∃ ev, (a :: rest)[VWake.lowestIdx t (a :: rest)]? = some ev ∧
      VWake.remainingLife t ev =
        (VWake.scanMin t rest 1 (0, VWake.remainingLife t a)).2 := by
  simp only [VWake.lowestIdx]
  rcases scanMin_result t rest 1 (0, VWake.remainingLife t a) with heq | ⟨k, hk, heq⟩
  · rw [heq]
    exact ⟨a, by simp, rfl⟩
  · rw [heq]
    refine ⟨rest.get ⟨k, hk⟩, ?_, rfl⟩
    show (a :: rest)[k + 1]? = some (rest.get ⟨k, hk⟩)
    rw [List.getElem?_cons_succ]
    simp [List.getElem?_eq_getElem, hk]

/-- C8: inserting into a `VWake` pool already at capacity leaves the
population exactly at `MAX_RIPPLES = 50`, and the evicted entry — the element
at the index `addRipple` splices out — has the smallest remaining-life
fraction `1 - age/lifespan` among all ripples in the pool at that moment
(including the one just pushed). -/
theorem claim_C8_eviction (t x y : ℝ) (ty : RippleType) (rs : List VWake.Ripple)
    (h : rs.length = VWake.MAX_RIPPLES) :
    (VWake.addRipple t rs x y ty).length = VWake.MAX_RIPPLES ∧
      ∃ ev, (rs ++ [(⟨x, y, t, ty⟩ : VWake.Ripple)])[VWake.lowestIdx t (rs ++ [(⟨x, y, t, ty⟩ : VWake.Ripple)])]? = some ev ∧
        VWake.addRipple t rs x y ty =
          (rs ++ [(⟨x, y, t, ty⟩ : VWake.Ripple)]).eraseIdx (VWake.lowestIdx t (rs ++ [(⟨x, y, t, ty⟩ : VWake.Ripple)])) ∧
        ∀ r ∈ rs ++ [(⟨x, y, t, ty⟩ : VWake.Ripple)],
          VWake.remainingLife t ev ≤ VWake.remainingLife t r := by
  have hcap : VWake.MAX_RIPPLES = 50 := rfl
  have hlen2 : (rs ++ [(⟨x, y, t, ty⟩ : VWake.Ripple)]).length = 51 := by
    simp [h, hcap]
  have hne : rs ++ [(⟨x, y, t, ty⟩ : VWake.Ripple)] ≠ [] := by
    intro hc
    rw [hc] at hlen2
    simp at hlen2
  have hidx := lowestIdx_lt t (rs ++ [(⟨x, y, t, ty⟩ : VWake.Ripple)]) hne
  have hadd : VWake.addRipple t rs x y ty =
      (rs ++ [(⟨x, y, t, ty⟩ : VWake.Ripple)]).eraseIdx (VWake.lowestIdx t (rs ++ [(⟨x, y, t, ty⟩ : VWake.Ripple)])) := by
    simp only [VWake.addRipple]
    rw [if_pos (by rw [hlen2, hcap]; norm_num)]
  constructor
  · rw [hadd, List.length_eraseIdx]
    rw [if_pos hidx, hlen2, hcap]
  · cases hrs : rs with
    | nil => rw [hrs, hcap] at h; simp at h
    | cons a rest =>
      subst hrs
      rw [List.cons_append] at hadd hidx ⊢
      obtain ⟨ev, hev, hval⟩ := lowestIdx_spec t a (rest ++ [(⟨x, y, t, ty⟩ : VWake.Ripple)])
      refine ⟨ev, hev, hadd, ?_⟩
      intro r hr
      rw [hval]
      rcases List.mem_cons.mp hr with rfl | hr2
      · exact scanMin_snd_le_init t (rest ++ [(⟨x, y, t, ty⟩ : VWake.Ripple)]) 1 (0, VWake.remainingLife t r)
      · exact scanMin_snd_le_mem t (rest ++ [(⟨x, y, t, ty⟩ : VWake.Ripple)]) 1 (0, VWake.remainingLife t a) r hr2

theorem claim_C8_eviction_witness :
    (List.replicate 50 (⟨0, 0, 0, RippleType.normal⟩ : VWake.Ripple)).length =
        VWake.MAX_RIPPLES ∧
      (VWake.addRipple 1 (List.replicate 50 ⟨0, 0, 0, RippleType.normal⟩) 3 4
          RippleType.normal).length = VWake.MAX_RIPPLES :=
  ⟨by simp [VWake.MAX_RIPPLES],
   (claim_C8_eviction 1 3 4 RippleType.normal _ (by simp [VWake.MAX_RIPPLES])).1⟩

/-- C9: if the pointer moved 50 px between two consecutive frames (pointer
on-screen, accumulated wake distance nonnegative) and the spawn threshold is
the raindrop variant's 40 px, then exactly one wake-spawn event fires in
that frame: the spawn list is exactly the left/right pair offset 20 px from
the pointer along `moveAngle + pi ∓ WAKE_ANGLE` for the stored travel angle
`moveAngle = atan2 dy dx`, and the accumulated distance is reset to 0. -/
theorem claim_C9_wake_spawn (mx my pmx pmy w : ℝ) (hm : mx > 0) (hp : pmx > 0)
    (hw : 0 ≤ w)
    (hd : Real.sqrt ((mx - pmx) * (mx - pmx) + (my - pmy) * (my - pmy)) = 50) :
    KelvinRain.wakeStep mx my pmx pmy w =
      ([(mx + Real.cos (KelvinRain.atan2 (my - pmy) (mx - pmx) + Real.pi -
            KelvinRain.WAKE_ANGLE) * 20,
         my + Real.sin (KelvinRain.atan2 (my - pmy) (mx - pmx) + Real.pi -
            KelvinRain.WAKE_ANGLE) * 20),
        (mx + Real.cos (KelvinRain.atan2 (my - pmy) (mx - pmx) + Real.pi +
            KelvinRain.WAKE_ANGLE) * 20,
         my + Real.sin (KelvinRain.atan2 (my - pmy) (mx - pmx) + Real.pi +
            KelvinRain.WAKE_ANGLE) * 20)], 0) := by
  simp only [KelvinRain.wakeStep]
  rw [hd]
  rw [if_pos (show mx > 0 ∧ pmx > 0 from ⟨hm, hp⟩)]
  rw [if_pos (show w + 50 > 40 ∧ (50:ℝ) > 2 from ⟨by linarith, by norm_num⟩)]

theorem claim_C9_wake_spawn_witness :
    ((100:ℝ) > 0 ∧ (50:ℝ) > 0 ∧ (0:ℝ) ≤ 0 ∧
        Real.sqrt (((100:ℝ) - 50) * ((100:ℝ) - 50) +
          ((100:ℝ) - 100) * ((100:ℝ) - 100)) = 50) ∧
      KelvinRain.wakeStep 100 100 50 100 0 =
        ([(100 + Real.cos (KelvinRain.atan2 ((100:ℝ) - 100) ((100:ℝ) - 50) + Real.pi -
              KelvinRain.WAKE_ANGLE) * 20,
           100 + Real.sin (KelvinRain.atan2 ((100:ℝ) - 100) ((100:ℝ) - 50) + Real.pi -
              KelvinRain.WAKE_ANGLE) * 20),
          (100 + Real.cos (KelvinRain.atan2 ((100:ℝ) - 100) ((100:ℝ) - 50) + Real.pi +
              KelvinRain.WAKE_ANGLE) * 20,
           100 + Real.sin (KelvinRain.atan2 ((100:ℝ) - 100) ((100:ℝ) - 50) + Real.pi +
              KelvinRain.WAKE_ANGLE) * 20)], 0) := by
  have hd : Real.sqrt (((100:ℝ) - 50) * ((100:ℝ) - 50) +
      ((100:ℝ) - 100) * ((100:ℝ) - 100)) = 50 := by
    rw [show ((100:ℝ) - 50) * ((100:ℝ) - 50) + ((100:ℝ) - 100) * ((100:ℝ) - 100) =
      50 ^ 2 from by norm_num]
    exact Real.sqrt_sq (by norm_num)
  exact ⟨⟨by norm_num, by norm_num, le_refl 0, hd⟩,
    claim_C9_wake_spawn 100 100 50 100 0 (by norm_num) (by norm_num) (le_refl 0) hd⟩
